import Mathlib

/-!
Verification of the `typed_phy` dimensional-analysis library.

The library encodes units at the type level: a unit is a 7-component vector
of `typenum` integer exponents (`Dimensions`) paired with a rational scale
(`Fraction` of two `typenum` unsigned integers).  The shallow embedding below
moves that type-level data to the value level: `typenum` signed integers
become `Int`, `typenum` unsigned integers become `Nat`, and each type-level
operator (`Mul`/`Div` impls, the `Gcd` operator, the sealed equality traits,
the `Unit!` expression macro) becomes a Lean function over these values.
Integer storage types are modelled as `Int` with Rust's truncating division
(`Int.tdiv`) and, for `i32`, explicit range bounds.
-/

namespace TypedPhy

/-- The 7 base-quantity exponents (src/dimensions.rs, `Dimensions<L, M, T, I, O, N, J>`,
field names from the runtime mirror in src/rt.rs `RtDimensions`). -/
structure Dimensions where
  length : Int
  mass : Int
  time : Int
  electric_current : Int
  thermodynamic_temperature : Int
  amount_of_substance : Int
  luminous_intensity : Int
deriving DecidableEq, Repr

/-- Scale ratio `Numerator / Divisor` (src/fraction.rs, `Fraction<N, D>` with
`N D : Unsigned`). -/
structure Fraction where
  numerator : Nat
  divisor : Nat
deriving DecidableEq, Repr

/-- A unit: dimensions plus scale ratio (src/unit.rs, `Unit<D, R>`). -/
structure Unit where
  dimensions : Dimensions
  ratio : Fraction
deriving DecidableEq, Repr

/-- `impl Mul for Dimensions` (src/dimensions.rs lines 176-202): component-wise
`Add` of the seven exponents. -/
def Dimensions.mul (a b : Dimensions) : Dimensions where
  length := a.length + b.length
  mass := a.mass + b.mass
  time := a.time + b.time
  electric_current := a.electric_current + b.electric_current
  thermodynamic_temperature := a.thermodynamic_temperature + b.thermodynamic_temperature
  amount_of_substance := a.amount_of_substance + b.amount_of_substance
  luminous_intensity := a.luminous_intensity + b.luminous_intensity

/-- `impl Div for Dimensions` (src/dimensions.rs lines 209-236): component-wise
`Sub` of the seven exponents. -/
def Dimensions.div (a b : Dimensions) : Dimensions where
  length := a.length - b.length
  mass := a.mass - b.mass
  time := a.time - b.time
  electric_current := a.electric_current - b.electric_current
  thermodynamic_temperature := a.thermodynamic_temperature - b.thermodynamic_temperature
  amount_of_substance := a.amount_of_substance - b.amount_of_substance
  luminous_intensity := a.luminous_intensity - b.luminous_intensity

/-- `(n/d) * (a/b) = (n * a)/(d * b)` (src/fraction.rs lines 164-176). -/
def Fraction.mul (x y : Fraction) : Fraction where
  numerator := x.numerator * y.numerator
  divisor := x.divisor * y.divisor

/-- `(n/d) / (a/b) = (n * b)/(d * a)` (src/fraction.rs lines 178-190). -/
def Fraction.div (x y : Fraction) : Fraction where
  numerator := x.numerator * y.divisor
  divisor := x.divisor * y.numerator

/-- `impl Mul for Unit` (src/unit.rs lines 270-283): adds exponents and
multiplies ratios. -/
def Unit.mul (u v : Unit) : Unit where
  dimensions := u.dimensions.mul v.dimensions
  ratio := u.ratio.mul v.ratio

/-- `impl Div for Unit` (src/unit.rs lines 290-304): subtracts exponents and
divides ratios. -/
def Unit.div (u v : Unit) : Unit where
  dimensions := u.dimensions.div v.dimensions
  ratio := u.ratio.div v.ratio

/-- `sealed::FractionEq` (src/eq.rs lines 50-58): `A / B = U / V <=> A*V = U*B`,
a cross-multiplication test on unreduced fractions. -/
def FractionEq (x y : Fraction) : Prop :=
  x.numerator * y.divisor = y.numerator * x.divisor

instance (x y : Fraction) : Decidable (FractionEq x y) :=
  inferInstanceAs (Decidable (_ = _))

/-- `sealed::DimensionsEq` (src/eq.rs lines 33-48): all seven exponents equal. -/
def DimensionsEq (a b : Dimensions) : Prop :=
  a.length = b.length ∧ a.mass = b.mass ∧ a.time = b.time ∧
  a.electric_current = b.electric_current ∧
  a.thermodynamic_temperature = b.thermodynamic_temperature ∧
  a.amount_of_substance = b.amount_of_substance ∧
  a.luminous_intensity = b.luminous_intensity

instance (a b : Dimensions) : Decidable (DimensionsEq a b) :=
  inferInstanceAs (Decidable (_ ∧ _))

/-- `sealed::UnitEq` (src/eq.rs lines 22-31): dimensions equal and ratios
cross-multiplication equal. -/
def UnitEq (u v : Unit) : Prop :=
  DimensionsEq u.dimensions v.dimensions ∧ FractionEq u.ratio v.ratio

instance (u v : Unit) : Decidable (UnitEq u v) :=
  inferInstanceAs (Decidable (_ ∧ _))

/-- The all-zero dimension vector (`Dimensionless`, src/units.rs line 6). -/
def Dimensions.zero : Dimensions := ⟨0, 0, 0, 0, 0, 0, 0⟩

/-- `One = Fraction<U1, U1>` (src/fraction.rs line 48). -/
def Fraction.one : Fraction := ⟨1, 1⟩

/-- `Dimensionless` unit: all exponents zero, ratio `1/1` (src/units.rs line 6). -/
def Dimensionless : Unit := ⟨Dimensions.zero, Fraction.one⟩

/-- `Metre` (src/units.rs line 15). -/
def Metre : Unit := ⟨⟨1, 0, 0, 0, 0, 0, 0⟩, Fraction.one⟩

/-- `Second` (src/units.rs line 19). -/
def Second : Unit := ⟨⟨0, 0, 1, 0, 0, 0, 0⟩, Fraction.one⟩

/-- `MetrePerSecond = Unit![Metre / Second]` (src/units.rs line 53):
dims `(1,0,-1,0,0,0,0)`, ratio `1/1`. -/
def MetrePerSecond : Unit := Metre.div Second

/-- `Kilo<Metre>`: ratio multiplied by `10^3` (src/prefixes.rs lines 31, 60-69). -/
def KiloMetre : Unit := ⟨Metre.dimensions, Metre.ratio.mul ⟨1000, 1⟩⟩

/-- `Deci<Metre>`: ratio divided by `10^1` (src/prefixes.rs lines 38, 72-81). -/
def DeciMetre : Unit := ⟨Metre.dimensions, Metre.ratio.div ⟨10, 1⟩⟩

/-- The type-level `Gcd` operator (src/gcd.rs lines 30-96), value level.  The
branches mirror the trait impls: `gcd(0,v)=v`, `gcd(u,0)=u`; both even:
`2 * gcd(u/2, v/2)`; `u` even, `v` odd: `gcd(u/2, v)`; `u` odd, `v` even:
`gcd(u, v/2)`; both odd: `gcd((max-min)/2, min)`.  Parity dispatch in the
source is on the low bit of the `typenum` binary representation. -/
def gcd (u v : Nat) : Nat :=
  if u = 0 then v
  else if v = 0 then u
  else if u % 2 = 0 then
    if v % 2 = 0 then 2 * gcd (u / 2) (v / 2)
    else gcd (u / 2) v
  else if v % 2 = 0 then gcd u (v / 2)
  else gcd ((max u v - min u v) / 2) (min u v)
termination_by u + v
decreasing_by
  · omega
  · omega
  · omega
  · rcases Nat.le_total u v with h | h
    · rw [Nat.max_eq_right h, Nat.min_eq_left h]; omega
    · rw [Nat.max_eq_left h, Nat.min_eq_right h]; omega

/-- The binary GCD of src/gcd.rs agrees with the mathematical gcd. -/
theorem gcd_eq_gcd (u v : Nat) : gcd u v = Nat.gcd u v := by
  have H : ∀ n u v, u + v ≤ n → gcd u v = Nat.gcd u v := by
    intro n
    induction n with
    | zero =>
      intro u v h
      have hu : u = 0 := by omega
      have hv : v = 0 := by omega
      subst hu; subst hv
      rw [gcd.eq_def]; simp
    | succ n ih =>
      intro u v h
      rw [gcd.eq_def]
      split_ifs with h0 h1 h2 h3 h4
      · simp [h0]
      · simp [h1]
      · have hu2 : 2 * (u / 2) = u := by omega
        have hv2 : 2 * (v / 2) = v := by omega
        rw [ih _ _ (by omega), ← Nat.gcd_mul_left, hu2, hv2]
      · have hv : Odd v := Nat.odd_iff.mpr (by omega)
        have hcop : Nat.Coprime 2 v := Nat.coprime_two_left.mpr hv
        rw [ih _ _ (by omega)]
        have hc := hcop.gcd_mul_left_cancel (u / 2)
        rw [← hc, show 2 * (u / 2) = u by omega]
      · have hu : Odd u := Nat.odd_iff.mpr (by omega)
        have hcop : Nat.Coprime 2 u := Nat.coprime_two_left.mpr hu
        rw [ih _ _ (by omega)]
        have hc := hcop.gcd_mul_left_cancel_right (v / 2)
        rw [← hc, show 2 * (v / 2) = v by omega]
      · rcases Nat.le_total u v with hle | hle
        · rw [Nat.max_eq_right hle, Nat.min_eq_left hle]
          have hsub : (v - u) % 2 = 0 := by omega
          have hu : Odd u := Nat.odd_iff.mpr (by omega)
          have hcop : Nat.Coprime 2 u := Nat.coprime_two_left.mpr hu
          rw [ih _ _ (by omega)]
          have hc := hcop.gcd_mul_left_cancel ((v - u) / 2)
          rw [← hc, show 2 * ((v - u) / 2) = v - u by omega,
            Nat.gcd_sub_self_left hle, Nat.gcd_comm]
        · rw [Nat.max_eq_left hle, Nat.min_eq_right hle]
          have hsub : (u - v) % 2 = 0 := by omega
          have hv : Odd v := Nat.odd_iff.mpr (by omega)
          have hcop : Nat.Coprime 2 v := Nat.coprime_two_left.mpr hv
          rw [ih _ _ (by omega)]
          have hc := hcop.gcd_mul_left_cancel ((u - v) / 2)
          rw [← hc, show 2 * ((u - v) / 2) = u - v by omega,
            Nat.gcd_sub_self_left hle]
  exact H (u + v) u v le_rfl

/-- `FractionTrait::mul` (src/fraction.rs lines 89-95): scale the storage value
by the ratio, `int * numerator / divisor`.  Rust integer division truncates
toward zero, i.e. `Int.tdiv`. -/
def Fraction.mulInt (f : Fraction) (x : Int) : Int :=
  Int.tdiv (x * (f.numerator : Int)) (f.divisor : Int)

/-- `FractionTrait::div` (src/fraction.rs lines 107-113):
`int * divisor / numerator`, with truncating division. -/
def Fraction.divInt (f : Fraction) (x : Int) : Int :=
  Int.tdiv (x * (f.divisor : Int)) (f.numerator : Int)

/-- `Quantity<S, U>` (src/quantity.rs lines 116-122) with integer storage.
The unit is a phantom type parameter in the source; the embedding carries it
as data. -/
structure Quantity where
  storage : Int
  unit : Unit
deriving DecidableEq, Repr

/-- `Quantity::set_unit` (src/quantity.rs lines 233-238): requires the
destination unit to have the same dimensions (`T: UnitTrait<Dimensions =
U::Dimensions>`); keeps the storage value. -/
def Quantity.set_unit (q : Quantity) (t : Unit)
    (_ : q.unit.dimensions = t.dimensions) : Quantity :=
  ⟨q.storage, t⟩

/-- `Quantity::set_ratio` (src/quantity.rs lines 245-248): replaces the ratio
by an arbitrary fraction; keeps the storage value. -/
def Quantity.set_ratio (q : Quantity) (r : Fraction) : Quantity :=
  ⟨q.storage, ⟨q.unit.dimensions, r⟩⟩

/-- `Quantity::into_unit` (src/quantity.rs lines 330-335): requires equal
dimensions; the new storage is `T::Ratio::div(U::Ratio::mul(storage))`. -/
def Quantity.into_unit (q : Quantity) (t : Unit)
    (_ : q.unit.dimensions = t.dimensions) : Quantity :=
  ⟨t.ratio.divInt (q.unit.ratio.mulInt q.storage), t⟩

/-- Unchecked `Add` (src/quantity.rs lines 375-385): same unit on both sides. -/
def Quantity.add (q1 q2 : Quantity) (_ : q1.unit = q2.unit) : Quantity :=
  ⟨q1.storage + q2.storage, q1.unit⟩

/-- Unchecked `Sub` (src/quantity.rs lines 394-404): same unit on both sides. -/
def Quantity.sub (q1 q2 : Quantity) (_ : q1.unit = q2.unit) : Quantity :=
  ⟨q1.storage - q2.storage, q1.unit⟩

/-- Unchecked `Mul` (src/quantity.rs lines 413-425): any units, result unit
`U0 * U1`. -/
def Quantity.mul (q1 q2 : Quantity) : Quantity :=
  ⟨q1.storage * q2.storage, q1.unit.mul q2.unit⟩

/-- Unchecked `Div` (src/quantity.rs lines 434-446): any units, result unit
`U0 / U1`; storage division is Rust truncating division. -/
def Quantity.div (q1 q2 : Quantity) : Quantity :=
  ⟨Int.tdiv q1.storage q2.storage, q1.unit.div q2.unit⟩

/-- `i32::MIN`. -/
def i32min : Int := -2147483648

/-- `i32::MAX`. -/
def i32max : Int := 2147483647

/-- `i32::checked_add`: `None` exactly when the exact sum falls outside the
`i32` range. -/
def checked_add_i32 (a b : Int) : Option Int :=
  if i32min ≤ a + b ∧ a + b ≤ i32max then some (a + b) else none

/-- `i32::checked_sub`: `None` exactly when the exact difference falls outside
the `i32` range. -/
def checked_sub_i32 (a b : Int) : Option Int :=
  if i32min ≤ a - b ∧ a - b ≤ i32max then some (a - b) else none

/-- `i32::checked_mul`: `None` exactly when the exact product falls outside
the `i32` range. -/
def checked_mul_i32 (a b : Int) : Option Int :=
  if i32min ≤ a * b ∧ a * b ≤ i32max then some (a * b) else none

/-- `i32::checked_div`: `None` on a zero divisor, or when the truncated
quotient overflows (only `i32::MIN / -1` for in-range operands). -/
def checked_div_i32 (a b : Int) : Option Int :=
  if b = 0 then none
  else if i32min ≤ Int.tdiv a b ∧ Int.tdiv a b ≤ i32max then some (Int.tdiv a b)
  else none

/-- `CheckedAdd` for `Quantity` (src/quantity.rs lines 506-514): same unit on
both sides, storage-level checked addition, unit kept. -/
def Quantity.checked_add (q1 q2 : Quantity) (_ : q1.unit = q2.unit) :
    Option Quantity :=
  (checked_add_i32 q1.storage q2.storage).map (⟨·, q1.unit⟩)

/-- `CheckedSub` for `Quantity` (src/quantity.rs lines 524-532). -/
def Quantity.checked_sub (q1 q2 : Quantity) (_ : q1.unit = q2.unit) :
    Option Quantity :=
  (checked_sub_i32 q1.storage q2.storage).map (⟨·, q1.unit⟩)

/-- `CheckedMul` for `Quantity` (src/quantity.rs lines 542-552): any units,
result unit `U0 * U1`. -/
def Quantity.checked_mul (q1 q2 : Quantity) : Option Quantity :=
  (checked_mul_i32 q1.storage q2.storage).map (⟨·, q1.unit.mul q2.unit⟩)

/-- `CheckedDiv` for `Quantity` (src/quantity.rs lines 562-572): any units,
result unit `U0 / U1`. -/
def Quantity.checked_div (q1 q2 : Quantity) : Option Quantity :=
  (checked_div_i32 q1.storage q2.storage).map (⟨·, q1.unit.div q2.unit⟩)

/-- The two operators the `Unit!` expression compiler accepts
(src/macros.rs, `@ty_op` branches, lines 214-219). -/
inductive Op
  | mul
  | div
deriving DecidableEq, Repr

/-- Operator flip used for negative exponents (src/macros.rs lines 134-139):
`* X^-n` becomes `/ X^n` and `/ X^-n` becomes `* X^n`. -/
def Op.flip : Op → Op
  | .mul => .div
  | .div => .mul

/-- One `@ty_op` application.  The initial accumulator `NoOpMul` is modelled
as `none`: `NoOpMul * X = X` (src/macros.rs lines 259-266) and
`NoOpMul / X = Dimensionless / X` (src/macros.rs lines 269-279); otherwise
the accumulated unit is combined with the term by the Unit algebra. -/
def applyOp : Option Unit → Op → Unit → Unit
  | none, .mul, x => x
  | none, .div, x => Dimensionless.div x
  | some a, .mul, x => a.mul x
  | some a, .div, x => a.div x

/-- Exponent expansion by repetition (src/macros.rs lines 140-151): the
`^ n` branches apply `@ty_op acc {op} x` `n` times with the same operator. -/
def applyOpPow (acc : Option Unit) (op : Op) (x : Unit) : Nat → Option Unit
  | 0 => acc
  | n + 1 => applyOpPow (some (applyOp acc op x)) op x n

/-- One parsed `(operator, term, optional exponent)` triple of a `Unit!`
invocation. -/
structure Term where
  op : Op
  base : Unit
  exp : Option Int

/-- Execute one term against the accumulator (src/macros.rs `@exec` exponent
branches, lines 134-160).  A term without exponent is applied once.  A
negative exponent flips the operator; the branches then accept only
exponents 1 to 4 — anything else (0 included) falls into the
`compile_error!` branch, modelled as `none`. -/
def execTerm (acc : Option Unit) (t : Term) : Option (Option Unit) :=
  match t.exp with
  | none => some (applyOpPow acc t.op t.base 1)
  | some e =>
    let p : Op × Int := if e < 0 then (t.op.flip, -e) else (t.op, e)
    if 1 ≤ p.2 ∧ p.2 ≤ 4 then some (applyOpPow acc p.1 t.base p.2.toNat)
    else none

/-- The left-to-right fold of `@exec` over the whole term sequence
(src/macros.rs lines 172-206); `none` is a compile error. -/
def execTerms : Option Unit → List Term → Option (Option Unit)
  | acc, [] => some acc
  | acc, t :: ts =>
    match execTerm acc t with
    | none => none
    | some acc2 => execTerms acc2 ts

/-- The whole `Unit![...]` compiler: start from `NoOpMul` with a leading `*`
folded into the first term (src/macros.rs lines 247-249), fold all terms;
`Unit![]` is `Dimensionless` (src/macros.rs lines 119-122). -/
def compile (ts : List Term) : Option Unit :=
  match execTerms none ts with
  | none => none
  | some none => some Dimensionless
  | some (some u) => some u

/-- The term sequence of `Unit![Metre / Second]` (the leading term carries
the implicit `*` of the start branch). -/
def mpsTerms : List Term :=
  [⟨.mul, Metre, none⟩, ⟨.div, Second, none⟩]

/-- The term sequence of
`Unit![Metre / Second * Second / Second * MetrePerSecond / MetrePerSecond]`. -/
def mpsLongTerms : List Term :=
  [⟨.mul, Metre, none⟩, ⟨.div, Second, none⟩,
   ⟨.mul, Second, none⟩, ⟨.div, Second, none⟩,
   ⟨.mul, MetrePerSecond, none⟩, ⟨.div, MetrePerSecond, none⟩]

/-- C1: Unit multiplication adds the 7 dimension exponents component-wise and
multiplies the scale ratios component-wise, and unit division subtracts the
exponents component-wise and divides the ratios by cross-multiplication
`(n1,d1)/(n2,d2) = (n1*d2, d1*n2)`, for every pair of units. -/
theorem unit_mul_div_componentwise (u v : Unit) :
    ((u.mul v).dimensions.length = u.dimensions.length + v.dimensions.length ∧
      (u.mul v).dimensions.mass = u.dimensions.mass + v.dimensions.mass ∧
      (u.mul v).dimensions.time = u.dimensions.time + v.dimensions.time ∧
      (u.mul v).dimensions.electric_current
        = u.dimensions.electric_current + v.dimensions.electric_current ∧
      (u.mul v).dimensions.thermodynamic_temperature
        = u.dimensions.thermodynamic_temperature
          + v.dimensions.thermodynamic_temperature ∧
      (u.mul v).dimensions.amount_of_substance
        = u.dimensions.amount_of_substance + v.dimensions.amount_of_substance ∧
      (u.mul v).dimensions.luminous_intensity
        = u.dimensions.luminous_intensity + v.dimensions.luminous_intensity) ∧
    ((u.mul v).ratio.numerator = u.ratio.numerator * v.ratio.numerator ∧
      (u.mul v).ratio.divisor = u.ratio.divisor * v.ratio.divisor) ∧
    ((u.div v).dimensions.length = u.dimensions.length - v.dimensions.length ∧
      (u.div v).dimensions.mass = u.dimensions.mass - v.dimensions.mass ∧
      (u.div v).dimensions.time = u.dimensions.time - v.dimensions.time ∧
      (u.div v).dimensions.electric_current
        = u.dimensions.electric_current - v.dimensions.electric_current ∧
      (u.div v).dimensions.thermodynamic_temperature
        = u.dimensions.thermodynamic_temperature
          - v.dimensions.thermodynamic_temperature ∧
      (u.div v).dimensions.amount_of_substance
        = u.dimensions.amount_of_substance - v.dimensions.amount_of_substance ∧
      (u.div v).dimensions.luminous_intensity
        = u.dimensions.luminous_intensity - v.dimensions.luminous_intensity) ∧
    ((u.div v).ratio.numerator = u.ratio.numerator * v.ratio.divisor ∧
      (u.div v).ratio.divisor = u.ratio.divisor * v.ratio.numerator) :=
  ⟨⟨rfl, rfl, rfl, rfl, rfl, rfl, rfl⟩, ⟨rfl, rfl⟩,
    ⟨rfl, rfl, rfl, rfl, rfl, rfl, rfl⟩, ⟨rfl, rfl⟩⟩

/-- C6: for every unit `u`, `u / u` has the all-zero dimension vector and is
strictly equal (dimension equality plus ratio cross-multiplication) to the
identity unit `Dimensionless` with scale `1/1`. -/
theorem unit_div_self_identity (u : Unit) :
    (u.div u).dimensions = Dimensions.zero ∧ UnitEq (u.div u) Dimensionless := by
  refine ⟨?_, ?_, ?_⟩
  · simp [Unit.div, Dimensions.div, Dimensions.zero]
  · simp [Unit.div, Dimensions.div, Dimensionless, Dimensions.zero, DimensionsEq]
  · simp [Unit.div, Fraction.div, Dimensionless, Fraction.one, FractionEq,
      Nat.mul_comm]

/-- C7: strict unit equality holds iff the dimension vectors agree
component-wise and the unreduced scale ratios pass the cross-multiplication
test `a*d = c*b`; in particular equal-dimension units with ratios `2/4` and
`1/2` are strictly equal. -/
theorem strict_unit_eq_iff :
    (∀ u v : Unit, UnitEq u v ↔
      ((u.dimensions.length = v.dimensions.length ∧
        u.dimensions.mass = v.dimensions.mass ∧
        u.dimensions.time = v.dimensions.time ∧
        u.dimensions.electric_current = v.dimensions.electric_current ∧
        u.dimensions.thermodynamic_temperature
          = v.dimensions.thermodynamic_temperature ∧
        u.dimensions.amount_of_substance = v.dimensions.amount_of_substance ∧
        u.dimensions.luminous_intensity = v.dimensions.luminous_intensity) ∧
        u.ratio.numerator * v.ratio.divisor
          = v.ratio.numerator * u.ratio.divisor)) ∧
    UnitEq ⟨⟨1, 0, 0, 0, 0, 0, 0⟩, ⟨2, 4⟩⟩ ⟨⟨1, 0, 0, 0, 0, 0, 0⟩, ⟨1, 2⟩⟩ :=
  ⟨fun _ _ => Iff.rfl, by decide⟩

/-- C8: the `Gcd` operator implements the binary GCD algorithm and computes
the greatest common divisor; in particular `gcd 10 5 = 5`, `gcd 10 10 = 10`,
`gcd 5 10 = 5`, `gcd 17 5 = 1`, `gcd 0 5 = 5`, `gcd 10 0 = 10`. -/
theorem gcd_correct :
    (∀ u v : Nat, gcd u v = Nat.gcd u v) ∧
    gcd 10 5 = 5 ∧ gcd 10 10 = 10 ∧ gcd 5 10 = 5 ∧ gcd 17 5 = 1 ∧
    gcd 0 5 = 5 ∧ gcd 10 0 = 10 := by
  refine ⟨gcd_eq_gcd, ?_, ?_, ?_, ?_, ?_, ?_⟩ <;> rw [gcd_eq_gcd] <;> decide

/-- C4: compiling `Unit![Metre / Second]` yields a unit strictly equal to the
pre-built `MetrePerSecond`, and compiling
`Unit![Metre/Second * Second/Second * MetrePerSecond/MetrePerSecond]` also
yields a unit strictly equal to `MetrePerSecond`. -/
theorem compile_metre_per_second :
    (∃ u, compile mpsTerms = some u ∧ UnitEq u MetrePerSecond) ∧
    (∃ u, compile mpsLongTerms = some u ∧ UnitEq u MetrePerSecond) :=
  ⟨⟨MetrePerSecond, rfl, by decide⟩, ⟨MetrePerSecond, by decide, by decide⟩⟩

/-- C5 (code bug): the `Unit!` expression compiler has no branch for a zero
exponent, so `X ^ 0` does not contribute an identity — it falls into the
out-of-bounds `compile_error!` branch (whose own message claims the accepted
bounds are `[-4; 4]`).  At the value level: executing a zero-exponent term
fails for every accumulator, operator and term, and compiling
`Unit![Metre ^ 0]` fails. -/
theorem compile_exponent_zero_rejected :
    compile [⟨Op.mul, Metre, some 0⟩] = none ∧
    ∀ (acc : Option Unit) (op : Op) (x : Unit),
      execTerm acc ⟨op, x, some 0⟩ = none := by
  refine ⟨rfl, ?_⟩
  intro acc op x
  simp [execTerm]

/-- C2: unit conversion is legal only between units with equal dimension
vectors, and rescales the stored value by multiplying by the source ratio
first and dividing by the destination ratio second; converting `10`
kilometres to metres yields storage `10000`, and `100000` decimetres to
kilometres yields storage `10`. -/
theorem into_unit_spec :
    (∀ (q : Quantity) (t : Unit) (h : q.unit.dimensions = t.dimensions),
      (q.into_unit t h).unit = t ∧
      (q.into_unit t h).storage = t.ratio.divInt (q.unit.ratio.mulInt q.storage)) ∧
    Quantity.into_unit ⟨10, KiloMetre⟩ Metre rfl = ⟨10000, Metre⟩ ∧
    Quantity.into_unit ⟨100000, DeciMetre⟩ KiloMetre rfl = ⟨10, KiloMetre⟩ :=
  ⟨fun _ _ _ => ⟨rfl, rfl⟩, by decide, by decide⟩

/-- Witness for `into_unit_spec` at `10` kilometres converted to metres. -/
theorem into_unit_spec_witness :
    (Quantity.into_unit ⟨10, KiloMetre⟩ Metre rfl).unit = Metre ∧
    (Quantity.into_unit ⟨10, KiloMetre⟩ Metre rfl).storage
      = Metre.ratio.divInt (KiloMetre.ratio.mulInt 10) :=
  into_unit_spec.1 ⟨10, KiloMetre⟩ Metre rfl

/-- C10: for integer storage, `into_unit` evaluates
`(value * n0 / d0) * d1 / n1` with truncating division at each step, so
converting `1` metre to kilometres yields `0` and converting back does not
restore the original quantity. -/
theorem into_unit_truncates :
    (∀ (q : Quantity) (t : Unit) (h : q.unit.dimensions = t.dimensions),
      (q.into_unit t h).storage =
        Int.tdiv
          (Int.tdiv (q.storage * (q.unit.ratio.numerator : Int))
              (q.unit.ratio.divisor : Int) * (t.ratio.divisor : Int))
          (t.ratio.numerator : Int)) ∧
    Quantity.into_unit ⟨1, Metre⟩ KiloMetre rfl = ⟨0, KiloMetre⟩ ∧
    Quantity.into_unit (Quantity.into_unit ⟨1, Metre⟩ KiloMetre rfl) Metre rfl
      ≠ ⟨1, Metre⟩ :=
  ⟨fun _ _ _ => rfl, by decide, by decide⟩

/-- Witness for `into_unit_truncates` at `1` metre converted to kilometres. -/
theorem into_unit_truncates_witness :
    (Quantity.into_unit ⟨1, Metre⟩ KiloMetre rfl).storage =
      Int.tdiv
        (Int.tdiv ((1 : Int) * (Metre.ratio.numerator : Int))
            (Metre.ratio.divisor : Int) * (KiloMetre.ratio.divisor : Int))
        (KiloMetre.ratio.numerator : Int) :=
  into_unit_truncates.1 ⟨1, Metre⟩ KiloMetre rfl

/-- C9: `set_unit` (legal only for equal dimension vectors) and `set_ratio`
(any ratio) replace only the attached unit and keep the storage value
bit-for-bit; `1000` metres becomes `1000` kilometres, not `1`. -/
theorem set_unit_preserves_storage :
    (∀ (q : Quantity) (t : Unit) (h : q.unit.dimensions = t.dimensions),
      (q.set_unit t h).storage = q.storage ∧ (q.set_unit t h).unit = t) ∧
    (∀ (q : Quantity) (r : Fraction),
      (q.set_ratio r).storage = q.storage ∧
      (q.set_ratio r).unit = ⟨q.unit.dimensions, r⟩) ∧
    Quantity.set_unit ⟨1000, Metre⟩ KiloMetre rfl = ⟨1000, KiloMetre⟩ :=
  ⟨fun _ _ _ => ⟨rfl, rfl⟩, fun _ _ => ⟨rfl, rfl⟩, rfl⟩

/-- Witness for `set_unit_preserves_storage` at `1000` metres re-labelled as
kilometres. -/
theorem set_unit_preserves_storage_witness :
    (Quantity.set_unit ⟨1000, Metre⟩ KiloMetre rfl).storage = 1000 ∧
    (Quantity.set_unit ⟨1000, Metre⟩ KiloMetre rfl).unit = KiloMetre :=
  set_unit_preserves_storage.1 ⟨1000, Metre⟩ KiloMetre rfl

/-- C3: each checked operation is absent exactly on overflow, underflow or
(for division) a zero right-hand storage value, and otherwise present with
the same storage result and derived unit as the unchecked operation;
`checked_add(Quantity(MAX, Second), Quantity(10, Second))` is absent,
`checked_div(Quantity(20, Metre), Quantity(0, Second))` is absent, and
`checked_div(Quantity(20, Metre), Quantity(10, Second))` is
`Quantity(2, MetrePerSecond)`. -/
theorem checked_arith_spec :
    (∀ (q1 q2 : Quantity) (h : q1.unit = q2.unit),
      (q1.checked_add q2 h =
        if i32min ≤ q1.storage + q2.storage ∧ q1.storage + q2.storage ≤ i32max
        then some (q1.add q2 h) else none) ∧
      (q1.checked_sub q2 h =
        if i32min ≤ q1.storage - q2.storage ∧ q1.storage - q2.storage ≤ i32max
        then some (q1.sub q2 h) else none)) ∧
    (∀ q1 q2 : Quantity,
      (q1.checked_mul q2 =
        if i32min ≤ q1.storage * q2.storage ∧ q1.storage * q2.storage ≤ i32max
        then some (q1.mul q2) else none) ∧
      (q1.checked_div q2 =
        if q2.storage ≠ 0 ∧ i32min ≤ Int.tdiv q1.storage q2.storage ∧
            Int.tdiv q1.storage q2.storage ≤ i32max
        then some (q1.div q2) else none)) ∧
    Quantity.checked_add ⟨i32max, Second⟩ ⟨10, Second⟩ rfl = none ∧
    Quantity.checked_div ⟨20, Metre⟩ ⟨0, Second⟩ = none ∧
    Quantity.checked_div ⟨20, Metre⟩ ⟨10, Second⟩ = some ⟨2, MetrePerSecond⟩ := by
  refine ⟨fun q1 q2 h => ⟨?_, ?_⟩, fun q1 q2 => ⟨?_, ?_⟩, by decide, by decide,
    by decide⟩
  · simp only [Quantity.checked_add, checked_add_i32, Quantity.add]
    split_ifs <;> rfl
  · simp only [Quantity.checked_sub, checked_sub_i32, Quantity.sub]
    split_ifs <;> rfl
  · simp only [Quantity.checked_mul, checked_mul_i32, Quantity.mul]
    split_ifs <;> rfl
  · simp only [Quantity.checked_div, checked_div_i32, Quantity.div]
    by_cases hz : q2.storage = 0
    · simp [hz]
    · simp only [hz, if_neg hz, ne_eq, not_false_eq_true, true_and]
      split_ifs <;> simp_all

/-- Witness for `checked_arith_spec` at `1 s + 2 s`. -/
theorem checked_arith_spec_witness :
    Quantity.checked_add ⟨1, Second⟩ ⟨2, Second⟩ rfl =
      (if i32min ≤ (1 : Int) + 2 ∧ (1 : Int) + 2 ≤ i32max
        then some (Quantity.add ⟨1, Second⟩ ⟨2, Second⟩ rfl) else none) :=
  (checked_arith_spec.1 ⟨1, Second⟩ ⟨2, Second⟩ rfl).1

end TypedPhy
